import Mathlib

/-!
Verification of the `release-tools` changelog-entry engine
(`release_tools/changelog.py`, `release_tools/repo.py`).

Python strings are modelled as Lean `String` (a list of characters);
the ASCII fragment of `str.lower` / `str.upper` / `str.strip` / `int()`
is modelled explicitly below.  Stateful file-system code is modelled by
explicit state passing over a map from paths to file contents, and
Python exceptions by `Except` with the exact message strings raised.
-/

deriving instance DecidableEq for Except

namespace ReleaseTools

/-! ### Character-level models of the Python string primitives -/

/-- Model of `str.lower` on one character (ASCII fragment): an upper-case
ASCII letter (code 65..90) is shifted down by 32, anything else is kept. -/
def lowerChar (c : Char) : Char :=
  if 65 ≤ c.toNat ∧ c.toNat ≤ 90 then Char.ofNat (c.toNat + 32) else c

/-- Model of `str.upper` on one character (ASCII fragment). -/
def upperChar (c : Char) : Char :=
  if 97 ≤ c.toNat ∧ c.toNat ≤ 122 then Char.ofNat (c.toNat - 32) else c

/-- `s.lower()` applied character-wise. -/
def pyLower (s : String) : String := ⟨s.data.map lowerChar⟩

/-- `s.upper()` applied character-wise. -/
def pyUpper (s : String) : String := ⟨s.data.map upperChar⟩

/-- `s.replace(a, b)` for a single-character pattern is a character map;
the source only uses `title.replace(' ', '-')`. -/
def pyReplaceChar (s : String) (a b : Char) : String :=
  ⟨s.data.map (fun c => if c = a then b else c)⟩

/-- `s.strip(chars)`: drop from both ends every character that occurs in
`chars`, stopping at the first character that does not. -/
def pyStrip (s : String) (chars : List Char) : String :=
  ⟨((s.data.dropWhile (chars.contains ·)).reverse.dropWhile
      (chars.contains ·)).reverse⟩

/-- `s[0:n]` for `n ≥ 0`. -/
def pySlice (s : String) (n : Nat) : String := ⟨s.data.take n⟩

/-- Characters treated as whitespace by Python `int()` (ASCII fragment). -/
def isPySpace (c : Char) : Bool :=
  c = ' ' ∨ c = '\t' ∨ c = '\n' ∨ c = '\r' ∨ c = '\x0b' ∨ c = '\x0c'

/-- Model of Python `int(s)` for a string `s` (ASCII fragment): ignore
leading and trailing whitespace, then an optional sign followed by one or
more decimal digits.  Returns `none` where `int()` raises `ValueError`.
(Unicode digits and underscore digit separators are outside this model.) -/
def pyParseInt (s : String) : Option Int :=
  let t := ((s.data.dropWhile isPySpace).reverse.dropWhile isPySpace).reverse
  let core : List Char → Option Nat := fun ds =>
    if ds ≠ [] ∧ ds.all (·.isDigit) then
      some (ds.foldl (fun a c => a * 10 + (c.toNat - 48)) 0)
    else none
  match t with
  | '-' :: rest => (core rest).map (fun n => -(n : Int))
  | '+' :: rest => (core rest).map (fun n => (n : Int))
  | _ => (core t).map (fun n => (n : Int))

/-- Python `repr` of a list of strings, as interpolated by
`"valid options are {}".format(...)`: comma-space separated,
each element between single quotes, the whole between brackets. -/
def pyListRepr (l : List String) : String :=
  "[" ++ String.intercalate ", " (l.map (fun s => "\x27" ++ s ++ "\x27")) ++ "]"

/-! ### `GitHandler.root_path` (repo.py lines 41-48, changelog.py lines 70-77)

The two git queries (`git rev-parse --show-superproject-working-tree` and
`git rev-parse --show-toplevel`) are external processes; their outputs,
already stripped of the trailing newline, are the two parameters.  The
Python body is

    path_ = self._get_submodule_root_path()
    if not path_:
        basepath = self._get_root_path()
    return basepath

so when the superproject query yields a non-empty path the local
`basepath` is never assigned and `return basepath` raises
`UnboundLocalError`; only the empty case returns the top-level path. -/
def root_path (submodule_path toplevel_path : String) : Except String String :=
  if submodule_path = "" then
    Except.ok toplevel_path
  else
    Except.error
      "UnboundLocalError: local variable \x27basepath\x27 referenced before assignment"

/-! ### `CategoryChange` (changelog.py lines 98-120) -/

/-- One member of the `CategoryChange` enum: Python member name, numeric
value, category key, display title. -/
structure CategoryMember where
  name : String
  value : Nat
  category : String
  title : String
deriving DecidableEq

/-- The eight members of `CategoryChange`, in declaration order. -/
def CategoryChange : List CategoryMember :=
  [⟨"ADDED", 1, "added", "New feature"⟩,
   ⟨"FIXED", 2, "fixed", "Bug fix"⟩,
   ⟨"CHANGED", 3, "changed", "Feature change"⟩,
   ⟨"DEPRECATED", 4, "deprecated", "New deprecation"⟩,
   ⟨"REMOVED", 5, "removed", "Feature removal"⟩,
   ⟨"SECURITY", 6, "security", "Security fix"⟩,
   ⟨"PERFORMANCE", 7, "performance", "Performance improvement"⟩,
   ⟨"OTHER", 8, "other", "Other"⟩]

/-- `CategoryChange.values()`: the ordered list of category keys. -/
def CategoryChange_values : List String := CategoryChange.map (fun m => m.category)

/-! ### Validators (changelog.py lines 159-195) -/

/-- `validate_title`: strip `"\n\r "` from both ends; an empty result is a
`BadParameter` error, otherwise the stripped value is returned. -/
def validate_title (value : String) : Except String String :=
  let v := pyStrip value ['\n', '\r', ' ']
  if v = "" then Except.error "title cannot be empty"
  else Except.ok v

/-- `validate_category`: first try `int(value)`.  On `ValueError`, look the
upper-cased string up among the enum member names (`CategoryChange[...]`)
and, when found, return `value` itself (the original string); otherwise
fail listing the valid keys.  For an integer, `CategoryChange(value)`
selects the member with that numeric value and its `category` key is
returned; an unmatched index fails naming the bound `1..len`. -/
def validate_category (value : String) : Except String String :=
  match pyParseInt value with
  | none =>
    if CategoryChange.any (fun m => m.name == pyUpper value) then
      Except.ok value
    else
      Except.error ("valid options are " ++ pyListRepr CategoryChange_values)
  | some n =>
    match CategoryChange.find? (fun m => ((m.value : Int)) == n) with
    | some m => Except.ok m.category
    | none =>
      Except.error ("please select an index between 1 and " ++
        toString CategoryChange.length)

/-! ### `ChangelogEntry` and serialization (changelog.py lines 123-140, 279-294) -/

/-- A YAML scalar as used by the entry dictionary: a string or `None`. -/
inductive YamlValue where
  | str (s : String)
  | null
deriving DecidableEq

/-- The optional fields of an entry map to `YamlValue.null` when absent. -/
def optVal : Option String → YamlValue
  | some s => YamlValue.str s
  | none => YamlValue.null

/-- `ChangelogEntry.__init__` fields (`pr` and `notes` default to `None`;
`author` is `None` in the flow used by `create_changelog_entry_content`). -/
structure ChangelogEntry where
  title : String
  category : String
  author : Option String
  pr : Option String
  notes : Option String

/-- `ChangelogEntry.to_dict`: the insertion-ordered Python dict, modelled
as an ordered association list. -/
def ChangelogEntry.to_dict (e : ChangelogEntry) : List (String × YamlValue) :=
  [("title", YamlValue.str e.title),
   ("category", YamlValue.str e.category),
   ("author", optVal e.author),
   ("pull_request", optVal e.pr),
   ("notes", optVal e.notes)]

/-- Model of `yaml.dump(contents, sort_keys=False, explicit_start=True)`
for a dict of plain scalars: a `---` start marker then one `key: value`
line per pair, in dict order, `None` rendered as `null`. -/
def yaml_dump (d : List (String × YamlValue)) : String :=
  "---\n" ++ String.join (d.map (fun p =>
    p.1 ++ ": " ++ (match p.2 with
                    | YamlValue.str s => s
                    | YamlValue.null => "null") ++ "\n"))

/-- `create_changelog_entry_content`: build the entry (notes never set),
serialize it, and optionally pass the text through the external editor,
which returns the edited text or `None` on abort (`click.edit`). -/
def create_changelog_entry_content (title category : String)
    (author pr : Option String) (run_editor : Bool)
    (editor : String → Option String) : Option String :=
  let entry : ChangelogEntry := ⟨title, category, author, pr, none⟩
  let stream := yaml_dump entry.to_dict
  if run_editor then editor stream else some stream

/-! ### File names and paths (changelog.py lines 51-54, 320-336) -/

/-- `YAML_FILE_EXTENSION = '.yml'` -/
def YAML_FILE_EXTENSION : String := ".yml"

/-- `MAX_FILENAME_LENGTH = 99 - len(YAML_FILE_EXTENSION)` (GNU tar bound). -/
def MAX_FILENAME_LENGTH : Nat := 99 - YAML_FILE_EXTENSION.length

/-- `os.path.join(a, b)` for POSIX paths (two arguments). -/
def os_path_join (a b : String) : String :=
  if b.data.head? = some '/' then b
  else if a = "" ∨ a.data.getLast? = some '/' then a ++ b
  else a ++ "/" ++ b

/-- `os.path.basename(p)`: everything after the last slash. -/
def os_path_basename (p : String) : String :=
  ⟨(p.data.reverse.takeWhile (fun c => c ≠ '/')).reverse⟩

/-- The filename computed inside `determine_filepath`:
`title.replace(' ', '-').lower()`, sliced to
`[0:MAX_FILENAME_LENGTH - 1]`, with the extension appended. -/
def determine_filename (title : String) : String :=
  pySlice (pyLower (pyReplaceChar title ' ' '-')) (MAX_FILENAME_LENGTH - 1) ++
    YAML_FILE_EXTENSION

/-- `determine_filepath(dirpath, title)`. -/
def determine_filepath (dirpath title : String) : String :=
  os_path_join dirpath (determine_filename title)

/-! ### The file store and `write_changelog_entry` (changelog.py lines 297-317) -/

/-- The file system visible to `write_changelog_entry`: a map from paths
to file contents. -/
abbrev FS := List (String × String)

/-- Whether a path is occupied. -/
def FS.existsFile (fs : FS) (p : String) : Bool :=
  fs.any (fun e => e.1 == p)

/-- The content stored at a path. -/
def FS.read (fs : FS) (p : String) : Option String :=
  (fs.find? (fun e => e.1 == p)).map (fun e => e.2)

/-- Create or replace the file at `p` with content `c`. -/
def FS.writeFile (fs : FS) (p c : String) : FS :=
  (p, c) :: fs.filter (fun e => e.1 != p)

/-- `write_changelog_entry(dirpath, title, content, overwrite)`.
`content` is `None` or a string (`click.edit` may return `None`);
`if not content` rejects both `None` and the empty string before the
file system is touched.  `overwrite` selects open mode `'w'` or `'x'`:
mode `'x'` raises `FileExistsError` when the path is occupied, leaving
the existing file untouched, and the handler re-raises with the message
built from `os.path.basename`.  The result pairs the raised error or
success with the resulting file system. -/
def write_changelog_entry (fs : FS) (dirpath title : String)
    (content : Option String) (overwrite : Bool) :
    Except String Unit × FS :=
  if content = none ∨ content = some "" then
    (Except.error "Aborting due to empty entry content", fs)
  else
    let filepath := determine_filepath dirpath title
    let filename := os_path_basename filepath
    if overwrite = false ∧ fs.existsFile filepath then
      (Except.error ("Changelog entry " ++ filename ++
        " already exists. Use \x27--overwrite\x27 to replace it."), fs)
    else
      (Except.ok (), fs.writeFile filepath (content.getD ""))

/-! ### Helper lemmas -/

theorem char_eq_of_toNat_eq {a b : Char} (h : a.toNat = b.toNat) : a = b :=
  Char.ext (UInt32.ext h)

theorem toNat_ofNat_valid {n : Nat} (h : n < 0xd800) : (Char.ofNat n).toNat = n := by
  have hv : n.isValidChar := Or.inl h
  simp [Char.ofNat, hv, Char.ofNatAux, Char.toNat]
  rfl

theorem lowerChar_toNat (c : Char) :
    (lowerChar c).toNat =
      if 65 ≤ c.toNat ∧ c.toNat ≤ 90 then c.toNat + 32 else c.toNat := by
  unfold lowerChar
  by_cases h : 65 ≤ c.toNat ∧ c.toNat ≤ 90
  · simp only [if_pos h]
    exact toNat_ofNat_valid (by omega)
  · simp only [if_neg h]

theorem lowerChar_not_upper (c : Char) :
    ¬(65 ≤ (lowerChar c).toNat ∧ (lowerChar c).toNat ≤ 90) := by
  have h := lowerChar_toNat c
  by_cases hc : 65 ≤ c.toNat ∧ c.toNat ≤ 90
  · rw [if_pos hc] at h
    omega
  · rw [if_neg hc] at h
    omega

theorem lowerChar_ne_space {c : Char} (h : c ≠ ' ') : lowerChar c ≠ ' ' := by
  intro heq
  have ht := lowerChar_toNat c
  rw [heq] at ht
  by_cases hc : 65 ≤ c.toNat ∧ c.toNat ≤ 90
  · rw [if_pos hc] at ht
    have : (' ' : Char).toNat = 32 := by decide
    omega
  · rw [if_neg hc] at ht
    exact h (char_eq_of_toNat_eq ht.symm)

/-- The character list underlying a derived filename. -/
theorem determine_filename_data (t : String) :
    (determine_filename t).data =
      ((t.data.map (fun c => if c = ' ' then '-' else c)).map lowerChar).take
          (MAX_FILENAME_LENGTH - 1) ++ ['.', 'y', 'm', 'l'] := rfl

/-! ### Claim theorems -/

/-- Claim C6: the derived filename is obtained by replacing each space with
a hyphen, lower-casing, truncating to at most `MAX_FILENAME_LENGTH - 1`
characters where `MAX_FILENAME_LENGTH = 99 - len(".yml")`, and appending
the fixed `.yml` extension; hence it is at most 99 characters long
including the extension, contains no space, and contains no upper-case
ASCII letter. -/
theorem C6_determine_filename (title : String) :
    determine_filename title =
      pySlice (pyLower (pyReplaceChar title ' ' '-')) (MAX_FILENAME_LENGTH - 1) ++
        YAML_FILE_EXTENSION ∧
    MAX_FILENAME_LENGTH = 99 - 4 ∧
    (determine_filename title).length ≤ 99 ∧
    (∀ c ∈ (determine_filename title).data,
       c ≠ ' ' ∧ ¬(65 ≤ c.toNat ∧ c.toNat ≤ 90)) := by
  refine ⟨rfl, rfl, ?_, ?_⟩
  · show (determine_filename title).data.length ≤ 99
    rw [determine_filename_data]
    have h1 := List.length_take_le (MAX_FILENAME_LENGTH - 1)
      ((title.data.map (fun c => if c = ' ' then '-' else c)).map lowerChar)
    rw [List.length_append]
    have : MAX_FILENAME_LENGTH - 1 = 94 := by decide
    simp only [List.length_cons, List.length_nil]
    omega
  · intro c hc
    rw [determine_filename_data] at hc
    rcases List.mem_append.mp hc with h | h
    · have hmem := List.mem_of_mem_take h
      rcases List.mem_map.mp hmem with ⟨b, hbmem, rfl⟩
      rcases List.mem_map.mp hbmem with ⟨a, _, rfl⟩
      constructor
      · apply lowerChar_ne_space
        by_cases ha : a = ' ' <;> simp [ha]
      · exact lowerChar_not_upper _
    · fin_cases h <;> exact ⟨by decide, by decide⟩

/-- Claim C6 witness: a sample character of a concrete derived filename. -/
theorem C6_determine_filename_witness :
    ('n' : Char) ≠ ' ' ∧ ¬(65 ≤ ('n' : Char).toNat ∧ ('n' : Char).toNat ≤ 90) :=
  (C6_determine_filename "New Change").2.2.2 'n' (by decide)

/-- Claim C1: the claim (and the spec) say a non-empty superproject query
result is returned as the repository root; in the code that branch never
assigns the returned local `basepath`, so `root_path` raises
`UnboundLocalError` for every non-empty superproject path instead of
returning it.  The fall-back to the top-level working tree on an empty
result is the only path that returns. -/
theorem C1_root_path_submodule_unbound (sub top : String) (h : sub ≠ "") :
    root_path sub top =
      Except.error
        "UnboundLocalError: local variable \x27basepath\x27 referenced before assignment" ∧
    root_path "" top = Except.ok top := by
  unfold root_path
  rw [if_neg h, if_pos rfl]
  exact ⟨rfl, rfl⟩

/-- Claim C1 witness: a concrete superproject path triggers the error. -/
theorem C1_root_path_submodule_unbound_witness :
    root_path "/home/user/super" "/home/user/super/module" =
      Except.error
        "UnboundLocalError: local variable \x27basepath\x27 referenced before assignment" ∧
    root_path "" "/home/user/super/module" = Except.ok "/home/user/super/module" :=
  C1_root_path_submodule_unbound "/home/user/super" "/home/user/super/module" (by decide)

/-- Claim C4: with `overwrite` false and the target file already present,
the write fails with the "already exists" error and the file system is
returned unchanged, so the existing content is untouched byte-for-byte. -/
theorem C4_write_collision (fs : FS) (d t c : String) (hc : c ≠ "")
    (hex : FS.existsFile fs (determine_filepath d t) = true) :
    write_changelog_entry fs d t (some c) false =
      (Except.error ("Changelog entry " ++
         os_path_basename (determine_filepath d t) ++
         " already exists. Use \x27--overwrite\x27 to replace it."), fs) := by
  unfold write_changelog_entry
  rw [if_neg (by simp [hc]), if_pos ⟨rfl, hex⟩]

/-- Claim C4 witness: a second write of the same title is rejected and the
first file keeps its content. -/
theorem C4_write_collision_witness :
    write_changelog_entry [("releases/unreleased/new-change.yml", "old")]
        "releases/unreleased" "new change" (some "new") false =
      (Except.error ("Changelog entry " ++
         os_path_basename (determine_filepath "releases/unreleased" "new change") ++
         " already exists. Use \x27--overwrite\x27 to replace it."),
       [("releases/unreleased/new-change.yml", "old")]) :=
  C4_write_collision [("releases/unreleased/new-change.yml", "old")]
    "releases/unreleased" "new change" "new" (by decide) (by decide)

/-- Claim C5: for every file system, directory, title and overwrite flag,
writing the empty string fails with the "empty entry" error and the file
system is returned unchanged — no file is created or modified. -/
theorem C5_write_empty_content (fs : FS) (d t : String) (overwrite : Bool) :
    write_changelog_entry fs d t (some "") overwrite =
      (Except.error "Aborting due to empty entry content", fs) := by
  unfold write_changelog_entry
  rw [if_pos (Or.inr rfl)]

/-- Claim C7: `to_dict` lists the fields in the fixed order
`title, category, author, pull_request, notes` (always all five), and an
absent optional field appears at its position as an explicit null marker
rather than being omitted. -/
theorem C7_to_dict_shape (title category : String) (author pr notes : Option String) :
    (ChangelogEntry.mk title category author pr notes).to_dict.map Prod.fst =
      ["title", "category", "author", "pull_request", "notes"] ∧
    (ChangelogEntry.mk title category author pr notes).to_dict.length = 5 ∧
    (author = none →
      (ChangelogEntry.mk title category author pr notes).to_dict[2]? =
        some ("author", YamlValue.null)) ∧
    (pr = none →
      (ChangelogEntry.mk title category author pr notes).to_dict[3]? =
        some ("pull_request", YamlValue.null)) ∧
    (notes = none →
      (ChangelogEntry.mk title category author pr notes).to_dict[4]? =
        some ("notes", YamlValue.null)) := by
  refine ⟨rfl, rfl, ?_, ?_, ?_⟩ <;> rintro rfl <;> rfl

/-- Claim C7 witness: the record of the base flow (no author, no pull
request, no notes) carries all three explicit null markers. -/
theorem C7_to_dict_shape_witness :
    (ChangelogEntry.mk "new change" "added" none none none).to_dict[2]? =
      some ("author", YamlValue.null) ∧
    (ChangelogEntry.mk "new change" "added" none none none).to_dict[3]? =
      some ("pull_request", YamlValue.null) ∧
    (ChangelogEntry.mk "new change" "added" none none none).to_dict[4]? =
      some ("notes", YamlValue.null) :=
  ⟨(C7_to_dict_shape "new change" "added" none none none).2.2.1 rfl,
   (C7_to_dict_shape "new change" "added" none none none).2.2.2.1 rfl,
   (C7_to_dict_shape "new change" "added" none none none).2.2.2.2 rfl⟩

/-- Claim C10: when the injected editor pass yields `None` (user abort),
`create_changelog_entry_content` propagates the absent result, and the
write rejects it with exactly the same "empty entry" error as an empty
string, leaving the file system unchanged. -/
theorem C10_none_content (fs : FS) (d t : String) (overwrite : Bool)
    (title category : String) (author pr : Option String) :
    create_changelog_entry_content title category author pr true (fun _ => none) =
      none ∧
    write_changelog_entry fs d t none overwrite =
      (Except.error "Aborting due to empty entry content", fs) ∧
    write_changelog_entry fs d t none overwrite =
      write_changelog_entry fs d t (some "") overwrite := by
  refine ⟨rfl, ?_, ?_⟩
  · unfold write_changelog_entry
    rw [if_pos (Or.inl rfl)]
  · unfold write_changelog_entry
    rw [if_pos (Or.inl rfl), if_pos (Or.inr rfl)]

/-- Claim C2 counterexample: the category input `"ADDED"` is accepted but
the value returned is the input string `"ADDED"`, not the canonical
lowercase key `"added"` the claim promises. -/
theorem C2_validate_category_counterexample :
    validate_category "ADDED" = Except.ok "ADDED" ∧
    ¬ validate_category "ADDED" = Except.ok "added" := by decide

/-- Claim C2 (amended): an accepted integer-index input yields the
`category` key of the registry member with that value (the canonical
lowercase key); an accepted non-integer input is returned exactly as the
user typed it — it matched some member name after upper-casing, but is
not canonicalized. -/
theorem validate_category_int {s : String} {n : Int} (hp : pyParseInt s = some n) :
    validate_category s =
      (match CategoryChange.find? (fun m => ((m.value : Int)) == n) with
       | some m => Except.ok m.category
       | none =>
         Except.error ("please select an index between 1 and " ++
           toString CategoryChange.length)) := by
  unfold validate_category
  rw [hp]

theorem validate_category_noint {s : String} (hp : pyParseInt s = none) :
    validate_category s =
      (if CategoryChange.any (fun m => m.name == pyUpper s) then Except.ok s
       else Except.error ("valid options are " ++ pyListRepr CategoryChange_values)) := by
  unfold validate_category
  rw [hp]

theorem C2_validate_category_amended (s r : String)
    (h : validate_category s = Except.ok r) :
    (∀ n, pyParseInt s = some n →
       (CategoryChange.find? (fun m => ((m.value : Int)) == n)).map
           (fun m => m.category) = some r) ∧
    (pyParseInt s = none → r = s ∧
       CategoryChange.any (fun m => m.name == pyUpper s) = true) := by
  constructor
  · intro n hn
    rw [validate_category_int hn] at h
    cases hf : CategoryChange.find? (fun m => ((m.value : Int)) == n) with
    | none =>
      rw [hf] at h
      exact (Except.noConfusion h)
    | some m =>
      rw [hf] at h
      simp only [Except.ok.injEq] at h
      simp [h]
  · intro hn
    rw [validate_category_noint hn] at h
    by_cases ha : CategoryChange.any (fun m => m.name == pyUpper s) = true
    · rw [if_pos ha] at h
      simp only [Except.ok.injEq] at h
      exact ⟨h.symm, ha⟩
    · rw [if_neg ha] at h
      exact (Except.noConfusion h)

/-- Claim C2 witness: index input `"2"` yields the canonical key
`"fixed"`; name input `"FiXed"` is returned as typed. -/
theorem C2_validate_category_amended_witness :
    (CategoryChange.find? (fun m => ((m.value : Int)) == (2 : Int))).map
        (fun m => m.category) = some "fixed" ∧
    (("FiXed" : String) = "FiXed" ∧
      CategoryChange.any (fun m => m.name == pyUpper "FiXed") = true) :=
  ⟨(C2_validate_category_amended "2" "fixed" (by decide)).1 2 (by decide),
   (C2_validate_category_amended "FiXed" "FiXed" (by decide)).2 (by decide)⟩

/-- Claim C3 counterexample: a title consisting only of a tab character is
whitespace-only, yet validation accepts it and returns it unchanged; a
tab is also not stripped from the ends of a non-empty title. -/
theorem C3_validate_title_counterexample :
    validate_title "\t" = Except.ok "\t" ∧
    validate_title "\tabc\t" = Except.ok "\tabc\t" := by decide

/-- String-level characterization of an all-stripped string. -/
theorem pyStrip_eq_empty_iff (s : String) (chars : List Char) :
    pyStrip s chars = "" ↔ ∀ c ∈ s.data, chars.contains c := by
  unfold pyStrip
  constructor
  · intro h c hc
    have hl : ((s.data.dropWhile (chars.contains ·)).reverse.dropWhile
        (chars.contains ·)).reverse = [] := congrArg String.data h
    rw [List.reverse_eq_nil_iff, List.dropWhile_eq_nil_iff] at hl
    have hsplit := List.takeWhile_append_dropWhile
      (p := (chars.contains ·)) (l := s.data)
    rcases List.mem_append.mp (hsplit ▸ hc) with h1 | h2
    · exact List.mem_takeWhile_imp h1
    · exact hl c (List.mem_reverse.mpr h2)
  · intro h
    have h1 : s.data.dropWhile (chars.contains ·) = [] :=
      List.dropWhile_eq_nil_iff.mpr (fun x hx => h x hx)
    rw [h1]
    rfl

/-- Claim C3 (amended): `validate_title` strips only space, LF and CR from
the two ends; it fails with the "empty title" error exactly when every
character of the title is one of those three, and otherwise returns the
stripped string unchanged and non-empty.  Tab and other whitespace are
neither stripped nor grounds for rejection. -/
theorem C3_validate_title_amended (t : String) :
    (validate_title t = Except.error "title cannot be empty" ↔
       ∀ c ∈ t.data, c ∈ ['\n', '\r', ' ']) ∧
    (∀ v, validate_title t = Except.ok v →
       v = pyStrip t ['\n', '\r', ' '] ∧ ¬ v = "") := by
  have hiff := pyStrip_eq_empty_iff t ['\n', '\r', ' ']
  constructor
  · constructor
    · intro h c hc
      by_cases hv : pyStrip t ['\n', '\r', ' '] = ""
      · have := hiff.mp hv c hc
        simpa [List.contains] using this
      · simp only [validate_title, if_neg hv] at h
        exact (Except.noConfusion h)
    · intro h
      have hv : pyStrip t ['\n', '\r', ' '] = "" := by
        refine hiff.mpr (fun c hc => ?_)
        have := h c hc
        simpa [List.contains] using this
      simp only [validate_title, if_pos hv]
  · intro v hv
    by_cases h0 : pyStrip t ['\n', '\r', ' '] = ""
    · simp only [validate_title, if_pos h0] at hv
      exact (Except.noConfusion hv)
    · simp only [validate_title, if_neg h0, Except.ok.injEq] at hv
      exact ⟨hv.symm, hv ▸ h0⟩

/-- Claim C3 witness: a title with leading and trailing space, newline and
carriage return is returned with exactly those characters stripped. -/
theorem C3_validate_title_amended_witness :
    ("hi there" : String) = pyStrip " \nhi there\r " ['\n', '\r', ' '] ∧
    ¬ ("hi there" : String) = "" :=
  (C3_validate_title_amended " \nhi there\r ").2 "hi there" (by decide)

/-- Claim C8: an integer category input outside `1..8` is rejected with
the message naming the bound `1..8`, and a non-integer input matching no
category key case-insensitively is rejected with the message listing the
eight keys in canonical enumeration order. -/
theorem C8_validate_category_errors :
    (∀ s n, pyParseInt s = some n → (n < 1 ∨ 8 < n) →
       validate_category s =
         Except.error "please select an index between 1 and 8") ∧
    (∀ s, pyParseInt s = none →
       (∀ m ∈ CategoryChange, ¬ pyUpper s = pyUpper m.category) →
       validate_category s =
         Except.error
           "valid options are [\x27added\x27, \x27fixed\x27, \x27changed\x27, \x27deprecated\x27, \x27removed\x27, \x27security\x27, \x27performance\x27, \x27other\x27]") := by
  constructor
  · intro s n hp hrange
    rw [validate_category_int hp]
    have hf : CategoryChange.find? (fun m => ((m.value : Int)) == n) = none := by
      rw [List.find?_eq_none]
      intro m hm
      fin_cases hm <;> simp <;> omega
    rw [hf]
    decide
  · intro s hp hnm
    rw [validate_category_noint hp]
    have ha : CategoryChange.any (fun m => m.name == pyUpper s) = false := by
      rw [List.any_eq_false]
      intro m hm
      have hkey : m.name = pyUpper m.category := by
        fin_cases hm <;> decide
      simp only [beq_iff_eq]
      intro h
      exact hnm m hm (h ▸ hkey)
    rw [if_neg (by simp [ha])]
    decide

/-- Claim C8 witness: inputs `"42"` and `"bogus"` produce the two error
messages. -/
theorem C8_validate_category_errors_witness :
    validate_category "42" =
      Except.error "please select an index between 1 and 8" ∧
    validate_category "bogus" =
      Except.error
        "valid options are [\x27added\x27, \x27fixed\x27, \x27changed\x27, \x27deprecated\x27, \x27removed\x27, \x27security\x27, \x27performance\x27, \x27other\x27]" :=
  ⟨C8_validate_category_errors.1 "42" 42 (by decide) (by omega),
   C8_validate_category_errors.2 "bogus" (by decide) (by decide)⟩

/-- Claim C9: filename derivation carries every non-space character of the
title (up to the truncation point) into the derived name unchanged apart
from lower-casing; in particular a slash in the title survives into the
name, and the resulting file path then has extra directory components:
its basename is no longer the whole derived filename. -/
theorem C9_filename_preserves_nonspace (d t : String) :
    (∀ c ∈ t.data.take (MAX_FILENAME_LENGTH - 1), ¬ c = ' ' →
       lowerChar c ∈ (determine_filename t).data) ∧
    ('/' ∈ t.data.take (MAX_FILENAME_LENGTH - 1) →
       '/' ∈ (determine_filename t).data ∧
       ¬ os_path_basename (determine_filepath d t) = determine_filename t) := by
  have hpres : ∀ c ∈ t.data.take (MAX_FILENAME_LENGTH - 1), ¬ c = ' ' →
      lowerChar c ∈ (determine_filename t).data := by
    intro c hc hcs
    rw [determine_filename_data]
    apply List.mem_append_left
    rw [← List.map_take, ← List.map_take]
    exact List.mem_map_of_mem lowerChar
      (List.mem_map.mpr ⟨c, hc, if_neg hcs⟩)
  refine ⟨hpres, fun hs => ?_⟩
  have h1 : '/' ∈ (determine_filename t).data := by
    have h2 := hpres '/' hs (by decide)
    rwa [show lowerChar '/' = '/' from by decide] at h2
  refine ⟨h1, fun heq => ?_⟩
  have h2 : '/' ∈ (os_path_basename (determine_filepath d t)).data := by
    rw [heq]
    exact h1
  have h3 := List.mem_takeWhile_imp (List.mem_reverse.mp h2)
  simp at h3

/-- Claim C9 witness: the title `"fix a/b parsing"` yields a derived name
containing a slash, and the file lands one directory deeper than the
entries directory. -/
theorem C9_filename_preserves_nonspace_witness :
    '/' ∈ (determine_filename "fix a/b parsing").data ∧
    ¬ os_path_basename (determine_filepath "releases/unreleased" "fix a/b parsing") =
        determine_filename "fix a/b parsing" :=
  (C9_filename_preserves_nonspace "releases/unreleased" "fix a/b parsing").2
    (by decide)

end ReleaseTools
